import Mathlib

/-!
Verification of `osgb/convert.py` (conversion between latitude/longitude and
OSGB grid references).

Embedding conventions:

* Python floats are idealized as rational numbers (`ℚ`).  Division is Lean's
  total division on `ℚ` (the source never divides by zero on its own paths:
  "cos phi cannot be zero in GB").
* The transcendental library functions `math.sin`, `math.cos`, `math.sqrt`
  and `math.atan2` are abstracted as an `Oracle` structure of functions
  `ℚ → ℚ`; every theorem quantifies over the oracle (adding the hypotheses on
  it that the proof needs, e.g. `sin 0 = 0`, which holds for every libm).
* The two unbounded `while True:` loops (footpoint latitude in
  `reverse_project_onto_ellipsoid`, Bowring iteration in `cartesian_to_llh`)
  are given an explicit fuel parameter; running out of fuel is modelled as
  the distinguished outcome `Err.noConverge`.  The bounded `for i in range(20)`
  loop of `grid_to_ll` is translated with its exact structure and cap.
* Python exceptions are modelled by `Except Err`: `Err.keyError` for the
  `KeyError` raised by `ll_to_grid` on an unknown model, `Err.indexError`
  for an out-of-range list subscript (`ostn_data[y]`).
* The packed binary dataset `ostn02.data` is not part of the sources.
  Modelled from the spec: a dataset is a list of rows, one per kilometre of
  northing, each row being the value of its 3-digit leading-zeros prefix
  together with the list of payload bytes (3-byte triplets, four consecutive
  triplets describing the east/north shifts of two adjacent nodes, the raw
  value 50736 being the "no data" sentinel).  All definitions that consume a
  dataset take it as an explicit argument, and the per-process cache
  `ostn_cache` is threaded explicitly.
-/

/-- Abstraction of the libm transcendental functions used by the source. -/
structure Oracle where
  sin : ℚ → ℚ
  cos : ℚ → ℚ
  sqrt : ℚ → ℚ
  atan2 : ℚ → ℚ → ℚ

/-- Outcomes of Python exceptions (and of running out of loop fuel). -/
inductive Err where
  | keyError
  | indexError
  | noConverge
deriving DecidableEq

/-- One entry of the `ellipsoid_models` table: `(a, b, f, e2)`. -/
structure EllipsoidModel where
  a : ℚ
  b : ℚ
  f : ℚ
  e2 : ℚ
deriving DecidableEq

/-- The `'WGS84'` entry of `ellipsoid_models`. -/
def wgs84 : EllipsoidModel :=
  ⟨6378137.000, 6356752.31424518, 298.257223563, 0.006694379990141316996137233540⟩

/-- The `'OSGB36'` entry of `ellipsoid_models`. -/
def osgb36 : EllipsoidModel :=
  ⟨6377563.396, 6356256.909, 299.3249612665,
   0.0066705400741492318211148938735613129751683486352306⟩

/-- The `ellipsoid_models` dictionary, as a lookup by name. -/
def ellipsoid_models (name : String) : Option EllipsoidModel :=
  if name = "WGS84" then some wgs84
  else if name = "OSGB36" then some osgb36
  else none

/-- The degrees-per-radian constant `57.29577951308232087679815481410517`
spelled out repeatedly in the source. -/
def RAD : ℚ := 57.29577951308232087679815481410517

def ORIGIN_LAMBDA : ℚ := -2 / RAD

def ORIGIN_PHI : ℚ := 49 / RAD

def ORIGIN_EASTING : ℚ := 400000.0

def ORIGIN_NORTHING : ℚ := -100000.0

def CONVERGENCE_FACTOR : ℚ := 0.9996012717

/-- Round-half-to-even on `ℚ`, the tie-breaking rule of Python `round`. -/
def round_half_even (q : ℚ) : ℤ :=
  let f := ⌊q⌋
  let r := q - f
  if r < 1/2 then f
  else if 1/2 < r then f + 1
  else if f % 2 = 0 then f else f + 1

/-- `10 ^ nd` as a rational, for an integer (possibly negative) `nd`. -/
def pow10 (nd : ℤ) : ℚ :=
  if 0 ≤ nd then ((10 ^ nd.toNat : ℕ) : ℚ) else 1 / ((10 ^ (-nd).toNat : ℕ) : ℚ)

/-- Python `round(q, nd)`: the multiple of `10 ^ (-nd)` closest to `q`,
ties going to even. -/
def pyRound (q : ℚ) (nd : ℤ) : ℚ :=
  ((round_half_even (q * pow10 nd) : ℤ) : ℚ) / pow10 nd

/-- The meridional arc series `M` appearing verbatim in both
`project_onto_grid` and `reverse_project_onto_ellipsoid` (the source repeats
the same expression; it is factored out here once). -/
def meridional_arc (o : Oracle) (b n : ℚ) (phi : ℚ) : ℚ :=
  let p_plus := phi + ORIGIN_PHI
  let p_minus := phi - ORIGIN_PHI
  b * CONVERGENCE_FACTOR * (
      (1 + n * (1 + 5/4 * n * (1 + n))) * p_minus
    - 3 * n * (1 + n * (1 + 7/8 * n)) * o.sin p_minus * o.cos p_plus
    + (15/8 * n * (n * (1 + n))) * o.sin (2 * p_minus) * o.cos (2 * p_plus)
    - 35/24 * n ^ 3 * o.sin (3 * p_minus) * o.cos (3 * p_plus))

/-- `project_onto_grid(lat, lon, model)`.  The caller has already looked the
model name up in `ellipsoid_models` (the source performs the same dictionary
access again; the registry is immutable so the two lookups agree). -/
def project_onto_grid (o : Oracle) (m : EllipsoidModel) (lat lon : ℚ) : ℚ × ℚ :=
  let n := (m.a - m.b) / (m.a + m.b)
  let af := m.a * CONVERGENCE_FACTOR
  let phi := lat / RAD
  let lam := lon / RAD
  let cp := o.cos phi
  let sp := o.sin phi
  let sp2 := sp * sp
  let tp := sp / cp
  let tp2 := tp * tp
  let tp4 := tp2 * tp2
  let splat := 1 - m.e2 * sp2
  let sqrtsplat := o.sqrt splat
  let nu := af / sqrtsplat
  let rho := af * (1 - m.e2) / (splat * sqrtsplat)
  let eta2 := nu / rho - 1
  let M := meridional_arc o m.b n phi
  let I := M + ORIGIN_NORTHING
  let II := nu / 2 * sp * cp
  let III := nu / 24 * sp * cp ^ 3 * (5 - tp2 + 9 * eta2)
  let IIIA := nu / 720 * sp * cp ^ 5 * (61 - 58 * tp2 + tp4)
  let IV := nu * cp
  let V := nu / 6 * cp ^ 3 * (nu / rho - tp2)
  let VI := nu / 120 * cp ^ 5 * (5 - 18 * tp2 + tp4 + 14 * eta2 - 58 * tp2 * eta2)
  let dl := lam - ORIGIN_LAMBDA
  (ORIGIN_EASTING + IV * dl + V * dl ^ 3 + VI * dl ^ 5,
   I + II * dl ^ 2 + III * dl ^ 4 + IIIA * dl ^ 6)

/-- The `while True:` footpoint-latitude search of
`reverse_project_onto_ellipsoid`, with explicit fuel (the source has no cap;
`none` means the tolerance was not reached within `fuel` iterations). -/
def footpoint_phi (o : Oracle) (b n af dn : ℚ) : ℕ → ℚ → Option ℚ
  | 0, _ => none
  | fuel + 1, phi =>
    let M := meridional_arc o b n phi
    if |dn - M| < 1/100000 then some phi
    else footpoint_phi o b n af dn fuel (phi + (dn - M) / af)

/-- `reverse_project_onto_ellipsoid(easting, northing, model)`. -/
def reverse_project_onto_ellipsoid (o : Oracle) (m : EllipsoidModel) (fuel : ℕ)
    (easting northing : ℚ) : Option (ℚ × ℚ) :=
  let n := (m.a - m.b) / (m.a + m.b)
  let af := m.a * CONVERGENCE_FACTOR
  let dn := northing - ORIGIN_NORTHING
  let de := easting - ORIGIN_EASTING
  match footpoint_phi o m.b n af dn fuel (ORIGIN_PHI + dn / af) with
  | none => none
  | some phi =>
    let cp := o.cos phi
    let sp := o.sin phi
    let sp2 := sp * sp
    let tp := sp / cp
    let tp2 := tp * tp
    let tp4 := tp2 * tp2
    let tp6 := tp4 * tp2
    let splat := 1 - m.e2 * sp2
    let sqrtsplat := o.sqrt splat
    let nu := af / sqrtsplat
    let rho := af * (1 - m.e2) / (splat * sqrtsplat)
    let eta2 := nu / rho - 1
    let VII := tp / (2 * rho * nu)
    let VIII := tp / (24 * rho * nu ^ 3) * (5 + 3 * tp2 + eta2 - 9 * tp2 * eta2)
    let IX := tp / (720 * rho * nu ^ 5) * (61 + 90 * tp2 + 45 * tp4)
    let secp := 1 / cp
    let X := secp / nu
    let XI := secp / (6 * nu ^ 3) * (nu / rho + 2 * tp2)
    let XII := secp / (120 * nu ^ 5) * (5 + 28 * tp2 + 24 * tp4)
    let XIIA := secp / (5040 * nu ^ 7) * (61 + 662 * tp2 + 1320 * tp4 + 720 * tp6)
    let phi2 := phi - VII * de ^ 2 + VIII * de ^ 4 - IX * de ^ 6
    let lam := ORIGIN_LAMBDA + X * de - XI * de ^ 3 + XII * de ^ 5 - XIIA * de ^ 7
    some (phi2 * RAD, lam * RAD)

/-- `llh_to_cartesian(lat, lon, H, model)`. -/
def llh_to_cartesian (o : Oracle) (m : EllipsoidModel) (lat lon H : ℚ) : ℚ × ℚ × ℚ :=
  let phi := lat / RAD
  let sp := o.sin phi
  let cp := o.cos phi
  let lam := lon / RAD
  let sl := o.sin lam
  let cl := o.cos lam
  let nu := m.a / o.sqrt (1 - m.e2 * sp * sp)
  ((nu + H) * cp * cl, (nu + H) * cp * sl, ((1 - m.e2) * nu + H) * sp)

/-- The Bowring `while True:` latitude recovery of `cartesian_to_llh`, with
explicit fuel; returns the final latitude together with the last `nu`. -/
def bowring_phi (o : Oracle) (m : EllipsoidModel) (p z : ℚ) : ℕ → ℚ → Option (ℚ × ℚ)
  | 0, _ => none
  | fuel + 1, phi =>
    let sp := o.sin phi
    let nu := m.a / o.sqrt (1 - m.e2 * sp * sp)
    let phi2 := o.atan2 (z + m.e2 * nu * sp) p
    if |phi - phi2| < 1/1000000000000 then some (phi2, nu)
    else bowring_phi o m p z fuel phi2

/-- `cartesian_to_llh(x, y, z, model)`. -/
def cartesian_to_llh (o : Oracle) (m : EllipsoidModel) (fuel : ℕ)
    (x y z : ℚ) : Option (ℚ × ℚ × ℚ) :=
  let p := o.sqrt (x * x + y * y)
  let lam := o.atan2 y x
  match bowring_phi o m p z fuel (o.atan2 z (p * (1 - m.e2))) with
  | none => none
  | some (phi, nu) => some (phi * RAD, lam * RAD, p / o.cos phi - nu)

/-- `small_Helmert_transform_for_OSGB(direction, xa, ya, za)`. -/
def small_Helmert_transform_for_OSGB (direction : ℚ) (xa ya za : ℚ) : ℚ × ℚ × ℚ :=
  let tx := direction * (-446.448)
  let ty := direction * 125.157
  let tz := direction * (-542.060)
  let sp := direction * 0.0000204894 + 1
  let rx := direction * (-0.1502) / 3600 / RAD
  let ry := direction * (-0.2470) / 3600 / RAD
  let rz := direction * (-0.8421) / 3600 / RAD
  (tx + sp * xa - rz * ya + ry * za,
   ty + rz * xa + sp * ya - rx * za,
   tz - ry * xa + rx * ya + sp * za)

/-- `shift_ll_from_osgb36_to_wgs84(lat, lon)`. -/
def shift_ll_from_osgb36_to_wgs84 (o : Oracle) (fuel : ℕ) (lat lon : ℚ) :
    Option (ℚ × ℚ) :=
  let ca := llh_to_cartesian o osgb36 lat lon 0
  let cb := small_Helmert_transform_for_OSGB (-1) ca.1 ca.2.1 ca.2.2
  (cartesian_to_llh o wgs84 fuel cb.1 cb.2.1 cb.2.2).map (fun r => (r.1, r.2.1))

/-- `shift_ll_from_wgs84_to_osgb36(lat, lon)`. -/
def shift_ll_from_wgs84_to_osgb36 (o : Oracle) (fuel : ℕ) (lat lon : ℚ) :
    Option (ℚ × ℚ) :=
  let ca := llh_to_cartesian o wgs84 lat lon 0
  let cb := small_Helmert_transform_for_OSGB 1 ca.1 ca.2.1 ca.2.2
  (cartesian_to_llh o osgb36 fuel cb.1 cb.2.1 cb.2.2).map (fun r => (r.1, r.2.1))

/-- One row of the OSTN02 dataset.  Modelled from the spec (§4.4): the
binary blob `ostn02.data` is not among the sources; per the spec each record
row is a fixed-width 3-digit decimal prefix (the number of absent leading
columns) followed by packed 3-byte triplets.  `lz` is the parsed value of the
prefix and `bytes` the payload after it, so the Python row length is
`3 + bytes.length`. -/
structure OstnRow where
  lz : ℕ
  bytes : List ℕ
deriving DecidableEq

/-- The OSTN02 dataset: one row per kilometre of northing. -/
def OstnData := List OstnRow

/-- The four decoded shift values returned by `get_ostn_pair`:
`[e0, n0, e1, n1]` = east/north shifts at node `x` and node `x+1`. -/
structure OstnPair where
  e0 : ℚ
  n0 : ℚ
  e1 : ℚ
  n1 : ℚ
deriving DecidableEq

/-- `struct.unpack('BBB', row[i:i+3])` followed by
`(a<<10) + (b<<5) + c - 50736`. -/
def decode3 (row : OstnRow) (i : ℕ) : ℤ :=
  ((row.bytes.getD i 0 : ℤ) * 1024 + (row.bytes.getD (i + 1) 0 : ℤ) * 32
    + (row.bytes.getD (i + 2) 0 : ℤ)) - 50736

/-- `get_ostn_pair(x, y)`.  An out-of-range row subscript `ostn_data[y]` is
the Python `IndexError`.  The source index `3 + 6*(x - lz)` counts from the
start of the raw row; relative to the payload it is `6*(x - lz)`, and the
check `index + 12 > len(row)` becomes `len(bytes) < 6*(x - lz) + 12`. -/
def get_ostn_pair (d : OstnData) (x y : ℕ) : Except Err (Option OstnPair) :=
  match d.get? y with
  | none => .error .indexError
  | some row =>
    if x < row.lz then .ok none
    else
      let index := 6 * (x - row.lz)
      if row.bytes.length < index + 12 then .ok none
      else
        let s0 := decode3 row index
        let s1 := decode3 row (index + 3)
        let s2 := decode3 row (index + 6)
        let s3 := decode3 row (index + 9)
        if s0 = 0 ∨ s1 = 0 ∨ s2 = 0 ∨ s3 = 0 then .ok none
        else .ok (some ⟨86 + (s0 : ℚ) / 1000, -82 + (s1 : ℚ) / 1000,
                        86 + (s2 : ℚ) / 1000, -82 + (s3 : ℚ) / 1000⟩)

/-- Modelled from the spec (§4.4): the shift vector stored at a single grid
node `(x, y)`, or `none` when the node is undefined (absent column, missing
bytes, or the 50736 sentinel in either component).  This is the "stored node
shift" that the spec's interpolation-sanity property refers to. -/
def node_value (d : OstnData) (x y : ℕ) : Option (ℚ × ℚ) :=
  match d.get? y with
  | none => none
  | some row =>
    if x < row.lz then none
    else
      let off := 6 * (x - row.lz)
      if row.bytes.length < off + 6 then none
      else
        let s0 := decode3 row off
        let s1 := decode3 row (off + 3)
        if s0 = 0 ∨ s1 = 0 then none
        else some (86 + (s0 : ℚ) / 1000, -82 + (s1 : ℚ) / 1000)

/-- `int(q / 1000)` for a non-negative float `q` (truncation = floor). -/
def km_floor (q : ℚ) : ℕ := (⌊q / 1000⌋).toNat

/-- The bilinear interpolation tail of `find_OSTN02_shifts_at`. -/
def ostn_interp (lo hi : OstnPair) (easting northing : ℚ)
    (e_index n_index : ℕ) : ℚ × ℚ :=
  let t := easting / 1000 - e_index
  let u := northing / 1000 - n_index
  let f0 := (1 - t) * (1 - u)
  let f1 := t * (1 - u)
  let f2 := (1 - t) * u
  let f3 := t * u
  (f0 * lo.e0 + f1 * lo.e1 + f2 * hi.e0 + f3 * hi.e1,
   f0 * lo.n0 + f1 * lo.n1 + f2 * hi.n0 + f3 * hi.n1)

/-- The `ostn_cache` dictionary, threaded explicitly:
key `e_index + n_index * 701` maps to a decoded `get_ostn_pair` result
(including the cached `None`). -/
def OstnCache := List (ℕ × Option OstnPair)

/-- Dictionary lookup in the cache. -/
def cacheLookup : OstnCache → ℕ → Option (Option OstnPair)
  | [], _ => none
  | (k, v) :: c, k2 => if k2 = k then some v else cacheLookup c k2

/-- `if key not in ostn_cache: ostn_cache[key] = get_ostn_pair(x, y)`
followed by `ostn_cache[key]`.  When `get_ostn_pair` raises, nothing is
cached and the exception propagates. -/
def cacheFetch (d : OstnData) (c : OstnCache) (k x y : ℕ) :
    Except Err (Option OstnPair × OstnCache) :=
  match cacheLookup c k with
  | some v => .ok (v, c)
  | none =>
    match get_ostn_pair d x y with
    | .error er => .error er
    | .ok v => .ok (v, (k, v) :: c)

/-- `find_OSTN02_shifts_at(easting, northing)`, with the cache threaded
explicitly (result, updated cache). -/
def find_OSTN02_shifts_at (d : OstnData) (c : OstnCache) (easting northing : ℚ) :
    Except Err (Option (ℚ × ℚ)) × OstnCache :=
  if easting < 0 then (.ok none, c)
  else if northing < 0 then (.ok none, c)
  else
    let e_index := km_floor easting
    let n_index := km_floor northing
    if d.length ≤ n_index then (.ok none, c)
    else
      let lo_key := e_index + n_index * 701
      match cacheFetch d c lo_key e_index n_index with
      | .error er => (.error er, c)
      | .ok (none, c1) => (.ok none, c1)
      | .ok (some lo_shifts, c1) =>
        match cacheFetch d c1 (lo_key + 701) e_index (n_index + 1) with
        | .error er => (.error er, c1)
        | .ok (none, c2) => (.ok none, c2)
        | .ok (some hi_shifts, c2) =>
          (.ok (some (ostn_interp lo_shifts hi_shifts easting northing e_index n_index)), c2)

/-- `find_OSTN02_shifts_at` with every `get_ostn_pair` recomputed fresh
(no cache), the comparison point for the memoization claim; it is also what
the cached version computes on a first query (see
`find_shifts_empty_cache`). -/
def find_OSTN02_shifts_fresh (d : OstnData) (easting northing : ℚ) :
    Except Err (Option (ℚ × ℚ)) :=
  if easting < 0 then .ok none
  else if northing < 0 then .ok none
  else
    let e_index := km_floor easting
    let n_index := km_floor northing
    if d.length ≤ n_index then .ok none
    else
      match get_ostn_pair d e_index n_index with
      | .error er => .error er
      | .ok none => .ok none
      | .ok (some lo_shifts) =>
        match get_ostn_pair d e_index (n_index + 1) with
        | .error er => .error er
        | .ok none => .ok none
        | .ok (some hi_shifts) =>
          .ok (some (ostn_interp lo_shifts hi_shifts easting northing e_index n_index))

/-- A sequence of `find_OSTN02_shifts_at` queries sharing the process-wide
cache, starting from cache `c`; returns the list of results. -/
def run_queries (d : OstnData) : OstnCache → List (ℚ × ℚ) →
    List (Except Err (Option (ℚ × ℚ)))
  | _, [] => []
  | c, q :: qs =>
    let r := find_OSTN02_shifts_at d c q.1 q.2
    r.1 :: run_queries d r.2 qs

/-- The invariant of the `ostn_cache` dictionary: every stored entry is the
decoded `get_ostn_pair` result for the node its key denotes (keys decompose
as `e_index + n_index * 701` with `e_index < 701`). -/
def cache_ok (d : OstnData) (c : OstnCache) : Prop :=
  ∀ k v, cacheLookup c k = some v → get_ostn_pair d (k % 701) (k / 701) = .ok v

/-- The `for i in range(20)` fixed-point search of `grid_to_ll`.
`e, n` are the original inputs; `x, y` the current corrected point (already
computed once from the initial query before the loop); `last` the previous
shifts.  `.ok none` is `in_ostn02_polygon = False` (shifted off the edge);
`.ok (some (x, y))` is the converged (or capped) point.  Fuel `0` is the
exhaustion of `range(20)`: the loop ends with `in_ostn02_polygon` still
`True` and the current `x, y` are used — the cap is treated as convergence. -/
def ostn_shift_loop (find : ℚ → ℚ → Except Err (Option (ℚ × ℚ))) (e n : ℚ) :
    ℕ → ℚ → ℚ → ℚ × ℚ → Except Err (Option (ℚ × ℚ))
  | 0, x, y, _ => .ok (some (x, y))
  | fuel + 1, x, y, last =>
    match find x y with
    | .error er => .error er
    | .ok none => .ok none
    | .ok (some s) =>
      let x2 := e - s.1
      let y2 := n - s.2
      if |s.1 - last.1| < 1/10000 ∧ |s.2 - last.2| < 1/10000 then .ok (some (x2, y2))
      else ostn_shift_loop find e n fuel x2 y2 s

/-- The number of `find_OSTN02_shifts_at` queries made inside the
`range(20)` loop (the "refinement rounds"). -/
def ostn_shift_loop_rounds (find : ℚ → ℚ → Except Err (Option (ℚ × ℚ))) (e n : ℚ) :
    ℕ → ℚ → ℚ → ℚ × ℚ → ℕ
  | 0, _, _, _ => 0
  | fuel + 1, x, y, last =>
    match find x y with
    | .error _ => 1
    | .ok none => 1
    | .ok (some s) =>
      if |s.1 - last.1| < 1/10000 ∧ |s.2 - last.2| < 1/10000 then 1
      else 1 + ostn_shift_loop_rounds find e n fuel (e - s.1) (n - s.2) s

/-- `grid_to_ll(easting, northing, model)`.  `find` abstracts
`find_OSTN02_shifts_at` over the ambient dataset and cache (the claims below
are stated for arbitrary `find`, or instantiate it). -/
def grid_to_ll (o : Oracle) (find : ℚ → ℚ → Except Err (Option (ℚ × ℚ)))
    (fuel : ℕ) (easting northing : ℚ) (model : String) : Except Err (ℚ × ℚ) :=
  match reverse_project_onto_ellipsoid o osgb36 fuel easting northing with
  | none => .error .noConverge
  | some os =>
    if model = "OSGB36" then .ok os
    else
      match find easting northing with
      | .error er => .error er
      | .ok none =>
        match shift_ll_from_osgb36_to_wgs84 o fuel os.1 os.2 with
        | none => .error .noConverge
        | some r => .ok r
      | .ok (some s) =>
        match ostn_shift_loop find easting northing 20
                (easting - s.1) (northing - s.2) s with
        | .error er => .error er
        | .ok none =>
          match shift_ll_from_osgb36_to_wgs84 o fuel os.1 os.2 with
          | none => .error .noConverge
          | some r => .ok r
        | .ok (some xy) =>
          match reverse_project_onto_ellipsoid o wgs84 fuel xy.1 xy.2 with
          | none => .error .noConverge
          | some r => .ok r

/-- The body of `ll_to_grid` after the argument swap. -/
def ll_to_grid_raw (o : Oracle) (find : ℚ → ℚ → Except Err (Option (ℚ × ℚ)))
    (fuel : ℕ) (lat lon : ℚ) (model : String) (rounding : ℤ) :
    Except Err (ℚ × ℚ) :=
  match ellipsoid_models model with
  | none => .error .keyError
  | some mdl =>
    let en := project_onto_grid o mdl lat lon
    if model = "WGS84" then
      match find en.1 en.2 with
      | .error er => .error er
      | .ok (some s) =>
        let r := if rounding < 0 then 3 else rounding
        .ok (pyRound (en.1 + s.1) r, pyRound (en.2 + s.2) r)
      | .ok none =>
        match shift_ll_from_wgs84_to_osgb36 o fuel lat lon with
        | none => .error .noConverge
        | some ll2 =>
          let en2 := project_onto_grid o osgb36 ll2.1 ll2.2
          let r := if rounding < 0 then 0 else rounding
          .ok (pyRound en2.1 r, pyRound en2.2 r)
    else
      let r := if rounding < 0 then 3 else rounding
      .ok (pyRound en.1 r, pyRound en.2 r)

/-- `ll_to_grid(lat, lon, model, rounding)`: the source first silently swaps
the two coordinates when `lat < lon`. -/
def ll_to_grid (o : Oracle) (find : ℚ → ℚ → Except Err (Option (ℚ × ℚ)))
    (fuel : ℕ) (lat lon : ℚ) (model : String) (rounding : ℤ) :
    Except Err (ℚ × ℚ) :=
  if lat < lon then ll_to_grid_raw o find fuel lon lat model rounding
  else ll_to_grid_raw o find fuel lat lon model rounding

/-- A concrete oracle for witnesses: `sin = 0`, `cos = 1`, `sqrt = 1`,
`atan2 = 0`.  It satisfies `sin 0 = 0` and keeps every denominator of the
source alive. -/
def trivOracle : Oracle := ⟨fun _ => 0, fun _ => 1, fun _ => 1, fun _ _ => 0⟩

/-- Twelve payload bytes encoding four valid (non-sentinel) raw triplets:
each triplet decodes to `(49<<10) + (17<<5) + 0 - 50736 = -16`, so each node
component is `86 - 0.016` or `-82 - 0.016`. -/
def bytes12 : List ℕ := [49, 17, 0, 49, 17, 0, 49, 17, 0, 49, 17, 0]

/-- A dataset (per the §4.4 format) consisting of a single row whose first
node pair is defined: a query in that top row makes the interpolator access
row 1, which does not exist. -/
def sampleTop : OstnData := [⟨0, bytes12⟩]
/-- A dataset whose rows 1 and 2 hold defined node pairs while row 0 is
empty; used to exhibit the cache-key collision `701 + 0*701 = 0 + 1*701`. -/
def sampleCollide : OstnData := [⟨0, []⟩, ⟨0, bytes12⟩, ⟨0, bytes12⟩]
/-- A dataset whose node `(0,0)` is stored but whose row 1 is empty, so the
cell above the node has undefined corners: the coverage boundary. -/
def sampleEdge : OstnData := [⟨0, bytes12⟩, ⟨0, []⟩]
/-- A dataset with two full rows: every node of the cell at `(0,0)` is
defined. -/
def sampleFull : OstnData := [⟨0, bytes12⟩, ⟨0, bytes12⟩]




section
set_option allowUnsafeReducibility true
attribute [local semireducible] Rat.add Rat.mul Rat.inv Rat.sub Rat.div Rat.neg Rat.ofScientific

theorem pyRound_a : pyRound 400000 3 = 400000 := by decide

theorem pyRound_b : pyRound (-100000) 3 = -100000 := by decide

end

theorem ostn_shift_loop_rounds_le (find : ℚ → ℚ → Except Err (Option (ℚ × ℚ)))
    (e n : ℚ) : ∀ (fuel : ℕ) (x y : ℚ) (last : ℚ × ℚ),
    ostn_shift_loop_rounds find e n fuel x y last ≤ fuel := by
  intro fuel
  induction fuel with
  | zero => intro x y last; simp [ostn_shift_loop_rounds]
  | succ k ih =>
    intro x y last
    simp only [ostn_shift_loop_rounds]
    split
    · omega
    · omega
    · rename_i s hs
      split
      · omega
      · have h3 := ih (e - s.1) (n - s.2) s
        omega

theorem ostn_shift_loop_total (find : ℚ → ℚ → Except Err (Option (ℚ × ℚ)))
    (e n : ℚ) (hfind : ∀ a b, ∃ s, find a b = .ok (some s)) :
    ∀ (fuel : ℕ) (x y : ℚ) (last : ℚ × ℚ),
    ∃ p, ostn_shift_loop find e n fuel x y last = .ok (some p) := by
  intro fuel
  induction fuel with
  | zero => intro x y last; exact ⟨(x, y), rfl⟩
  | succ k ih =>
    intro x y last
    obtain ⟨s, hs⟩ := hfind x y
    simp only [ostn_shift_loop, hs]
    split
    · exact ⟨_, rfl⟩
    · exact ih _ _ _

/-- C5: the fixed-point search inside `grid_to_ll` performs at most 20
refinement rounds; it stops early as soon as both shift components change by
less than 0.0001 m between consecutive rounds (returning the current
corrected point), and when every query yields a shift the loop always ends
with a point — reaching the 20-round cap is treated as convergence, never as
a failure. -/
theorem C5_shift_search_cap (find : ℚ → ℚ → Except Err (Option (ℚ × ℚ))) (e n x y : ℚ) (last : ℚ × ℚ) :
    ostn_shift_loop_rounds find e n 20 x y last ≤ 20
    ∧ (∀ s, find x y = .ok (some s) →
        |s.1 - last.1| < 1/10000 → |s.2 - last.2| < 1/10000 →
        ostn_shift_loop find e n 20 x y last = .ok (some (e - s.1, n - s.2)))
    ∧ ((∀ a b, ∃ s, find a b = .ok (some s)) →
        ∃ p, ostn_shift_loop find e n 20 x y last = .ok (some p)) := by
  refine ⟨ostn_shift_loop_rounds_le find e n 20 x y last, ?_, ?_⟩
  · intro s hs h1 h2
    rw [show (20:ℕ) = 19 + 1 from rfl]
    simp only [ostn_shift_loop, hs]
    rw [if_pos ⟨h1, h2⟩]
  · intro hfind
    exact ostn_shift_loop_total find e n hfind 20 x y last

/-- C10: `ll_to_grid` is symmetric in its first two positional arguments —
whenever `lat < lon` the two are silently swapped, so swapping the arguments
never changes the result, for every model and rounding and for every oracle
and shift function. -/
theorem C10_argument_swap_symmetry (o : Oracle) (find : ℚ → ℚ → Except Err (Option (ℚ × ℚ)))
    (fuel : ℕ) (lat lon : ℚ) (model : String) (r : ℤ) :
    ll_to_grid o find fuel lat lon model r = ll_to_grid o find fuel lon lat model r := by
  simp only [ll_to_grid]
  rcases lt_trichotomy lat lon with h | h | h
  · rw [if_pos h, if_neg (lt_asymm h)]
  · rw [h]
  · rw [if_neg (lt_asymm h), if_pos h]

/-- C1 (amended): for every model name outside the fixed set
`{"WGS84", "OSGB36"}`, `ll_to_grid` fails with the `KeyError`; `grid_to_ll`
however performs no model check — it behaves exactly as for `"WGS84"` and
returns that result rather than failing. -/
theorem C1_unknown_model (o : Oracle) (find : ℚ → ℚ → Except Err (Option (ℚ × ℚ)))
    (fuel : ℕ) (lat lon e n : ℚ) (r : ℤ) (model : String)
    (h1 : model ≠ "WGS84") (h2 : model ≠ "OSGB36") :
    ll_to_grid o find fuel lat lon model r = .error .keyError
    ∧ grid_to_ll o find fuel e n model = grid_to_ll o find fuel e n "WGS84" := by
  constructor
  · simp [ll_to_grid, ll_to_grid_raw, ellipsoid_models, h1, h2]
  · simp only [grid_to_ll, if_neg h2,
      if_neg (show ¬ ("WGS84" : String) = "OSGB36" by decide)]

theorem meridional_arc_origin (o : Oracle) (b n : ℚ) (h : o.sin 0 = 0) :
    meridional_arc o b n ORIGIN_PHI = 0 := by
  simp only [meridional_arc, sub_self]
  norm_num [h]

theorem project_true_origin (o : Oracle) (m : EllipsoidModel) (h : o.sin 0 = 0) :
    project_onto_grid o m 49 (-2) = (400000, -100000) := by
  have h1 : (49 : ℚ) / RAD = ORIGIN_PHI := rfl
  have h2 : (-2 : ℚ) / RAD - ORIGIN_LAMBDA = 0 := by rw [ORIGIN_LAMBDA]; ring
  have hM := meridional_arc_origin o m.b ((m.a - m.b) / (m.a + m.b)) h
  simp only [project_onto_grid, h1, h2, hM]
  norm_num [ORIGIN_EASTING, ORIGIN_NORTHING]

/-- C8: `ll_to_grid(49, -2, model='OSGB36')` returns exactly
`(400000.0, -100000.0)`, the grid coordinates of the defining true point of
origin, for every oracle whose sine vanishes at 0 (as libm's does) and every
shift function. -/
theorem C8_true_origin (o : Oracle) (find : ℚ → ℚ → Except Err (Option (ℚ × ℚ)))
    (fuel : ℕ) (h : o.sin 0 = 0) :
    ll_to_grid o find fuel 49 (-2) "OSGB36" (-1) = .ok (400000, -100000) := by
  have hm : ellipsoid_models "OSGB36" = some osgb36 := rfl
  have hp := project_true_origin o osgb36 h
  simp only [ll_to_grid, ll_to_grid_raw]
  rw [if_neg (by norm_num : ¬ (49:ℚ) < -2), hm]
  simp only [hp]
  rw [if_neg (by decide : ¬ ("OSGB36" : String) = "WGS84")]
  norm_num [pyRound_a, pyRound_b]

/-- C2 (amended): `ll_to_grid` rounds its results before returning them:
to `rounding` decimal places whenever `rounding ≥ 0`, and for the default
`rounding = -1` to 3 decimal places on the `'OSGB36'` path and on the
OSTN02-corrected `'WGS84'` path (after the shifts are added), and to 0
decimal places on the Helmert fallback path (shift to OSGB36 and reproject).
The caller receives `pyRound` of the full-precision values, never the
values themselves. -/
theorem C2_rounding_applied (o : Oracle) (find : ℚ → ℚ → Except Err (Option (ℚ × ℚ)))
    (fuel : ℕ) (lat lon : ℚ) (r : ℤ) (hswap : ¬ lat < lon) (hr : 0 ≤ r) :
    ll_to_grid o find fuel lat lon "OSGB36" r
      = .ok (pyRound (project_onto_grid o osgb36 lat lon).1 r,
             pyRound (project_onto_grid o osgb36 lat lon).2 r)
  ∧ ll_to_grid o find fuel lat lon "OSGB36" (-1)
      = .ok (pyRound (project_onto_grid o osgb36 lat lon).1 3,
             pyRound (project_onto_grid o osgb36 lat lon).2 3)
  ∧ (∀ s, find (project_onto_grid o wgs84 lat lon).1 (project_onto_grid o wgs84 lat lon).2
        = .ok (some s) →
      ll_to_grid o find fuel lat lon "WGS84" (-1)
        = .ok (pyRound ((project_onto_grid o wgs84 lat lon).1 + s.1) 3,
               pyRound ((project_onto_grid o wgs84 lat lon).2 + s.2) 3)
      ∧ ll_to_grid o find fuel lat lon "WGS84" r
        = .ok (pyRound ((project_onto_grid o wgs84 lat lon).1 + s.1) r,
               pyRound ((project_onto_grid o wgs84 lat lon).2 + s.2) r))
  ∧ (∀ ll2, find (project_onto_grid o wgs84 lat lon).1 (project_onto_grid o wgs84 lat lon).2
        = .ok none →
      shift_ll_from_wgs84_to_osgb36 o fuel lat lon = some ll2 →
      ll_to_grid o find fuel lat lon "WGS84" (-1)
        = .ok (pyRound (project_onto_grid o osgb36 ll2.1 ll2.2).1 0,
               pyRound (project_onto_grid o osgb36 ll2.1 ll2.2).2 0)
      ∧ ll_to_grid o find fuel lat lon "WGS84" r
        = .ok (pyRound (project_onto_grid o osgb36 ll2.1 ll2.2).1 r,
               pyRound (project_onto_grid o osgb36 ll2.1 ll2.2).2 r)) := by
  have hm : ellipsoid_models "OSGB36" = some osgb36 := rfl
  have hw : ellipsoid_models "WGS84" = some wgs84 := rfl
  refine ⟨?_, ?_, ?_, ?_⟩
  · simp only [ll_to_grid, if_neg hswap, ll_to_grid_raw, hm]
    rw [if_neg (by decide : ¬ ("OSGB36" : String) = "WGS84"),
        if_neg (not_lt.mpr hr)]
  · simp only [ll_to_grid, if_neg hswap, ll_to_grid_raw, hm]
    rw [if_neg (by decide : ¬ ("OSGB36" : String) = "WGS84"),
        if_pos (by decide : (-1:ℤ) < 0)]
  · intro s hs
    constructor
    · simp [ll_to_grid, if_neg hswap, ll_to_grid_raw, hw, hs]
    · simp [ll_to_grid, if_neg hswap, ll_to_grid_raw, hw, hs, if_neg (not_lt.mpr hr)]
  · intro ll2 hnone hll2
    constructor
    · simp [ll_to_grid, if_neg hswap, ll_to_grid_raw, hw, hnone, hll2]
    · simp [ll_to_grid, if_neg hswap, ll_to_grid_raw, hw, hnone, hll2,
        if_neg (not_lt.mpr hr)]

theorem get_ostn_pair_oob (d : OstnData) (x y : ℕ) (h : d.length ≤ y) :
    get_ostn_pair d x y = .error .indexError := by
  simp only [get_ostn_pair, List.get?_eq_none.mpr h]

theorem get_ostn_pair_shape (d : OstnData) (x y : ℕ) (h : y < d.length) :
    get_ostn_pair d x y = .ok none ∨ ∃ p, get_ostn_pair d x y = .ok (some p) := by
  obtain ⟨row, hrow⟩ : ∃ row, d.get? y = some row := ⟨_, List.get?_eq_get h⟩
  simp only [get_ostn_pair, hrow]
  split
  · exact .inl rfl
  · split
    · exact .inl rfl
    · split
      · exact .inl rfl
      · exact .inr ⟨_, rfl⟩

theorem get_ostn_pair_none_iff (d : OstnData) (x y : ℕ) (h : y < d.length) :
    get_ostn_pair d x y = .ok none ↔
      node_value d x y = none ∨ node_value d (x + 1) y = none := by
  obtain ⟨row, hrow⟩ : ∃ row, d.get? y = some row := ⟨_, List.get?_eq_get h⟩
  simp only [get_ostn_pair, node_value, hrow]
  by_cases hx : x < row.lz
  · simp [hx]
  · have hx1 : ¬ (x + 1 < row.lz) := by omega
    have hoff : 6 * (x + 1 - row.lz) = 6 * (x - row.lz) + 6 := by omega
    simp only [if_neg hx, if_neg hx1, hoff]
    by_cases hb : row.bytes.length < 6 * (x - row.lz) + 12
    · have hb2 : row.bytes.length < 6 * (x - row.lz) + 6 + 6 := by omega
      simp [hb, hb2]
    · have hb2 : ¬ (row.bytes.length < 6 * (x - row.lz) + 6 + 6) := by omega
      have hb6 : ¬ (row.bytes.length < 6 * (x - row.lz) + 6) := by omega
      have h69 : 6 * (x - row.lz) + 6 + 3 = 6 * (x - row.lz) + 9 := by omega
      simp only [if_neg hb, if_neg hb2, if_neg hb6, h69]
      by_cases hz : decode3 row (6 * (x - row.lz)) = 0 ∨ decode3 row (6 * (x - row.lz) + 3) = 0
          ∨ decode3 row (6 * (x - row.lz) + 6) = 0 ∨ decode3 row (6 * (x - row.lz) + 9) = 0
      · rw [if_pos hz]
        simp only [true_iff]
        rcases hz with hz | hz | hz | hz
        · left; simp [hz]
        · left; simp [hz]
        · right; simp [hz]
        · right; simp [hz]
      · push_neg at hz
        obtain ⟨z1, z2, z3, z4⟩ := hz
        rw [if_neg (not_or.mpr ⟨z1, not_or.mpr ⟨z2, not_or.mpr ⟨z3, z4⟩⟩⟩),
            if_neg (not_or.mpr ⟨z1, z2⟩), if_neg (not_or.mpr ⟨z3, z4⟩)]
        simp

theorem get_ostn_pair_some_nodes (d : OstnData) (x y : ℕ) (h : y < d.length)
    (p : OstnPair) (hp : get_ostn_pair d x y = .ok (some p)) :
    node_value d x y ≠ none ∧ node_value d (x + 1) y ≠ none := by
  have hne : get_ostn_pair d x y ≠ .ok none := by rw [hp]; simp
  exact ⟨fun hc => hne ((get_ostn_pair_none_iff d x y h).mpr (.inl hc)),
         fun hc => hne ((get_ostn_pair_none_iff d x y h).mpr (.inr hc))⟩

theorem get_ostn_pair_some_node (d : OstnData) (x y : ℕ) (p : OstnPair)
    (hp : get_ostn_pair d x y = .ok (some p)) :
    node_value d x y = some (p.e0, p.n0) := by
  cases hy : d.get? y with
  | none => rw [get_ostn_pair.eq_def, hy] at hp; cases hp
  | some row =>
    rw [get_ostn_pair.eq_def, hy] at hp
    simp only [node_value, hy]
    by_cases hx : x < row.lz
    · simp [hx] at hp
    · simp only [if_neg hx] at hp ⊢
      by_cases hb : row.bytes.length < 6 * (x - row.lz) + 12
      · simp [hb] at hp
      · simp only [if_neg hb] at hp
        have hb6 : ¬ (row.bytes.length < 6 * (x - row.lz) + 6) := by omega
        rw [if_neg hb6]
        by_cases hz : decode3 row (6 * (x - row.lz)) = 0 ∨ decode3 row (6 * (x - row.lz) + 3) = 0
            ∨ decode3 row (6 * (x - row.lz) + 6) = 0 ∨ decode3 row (6 * (x - row.lz) + 9) = 0
        · simp [hz] at hp
        · rw [if_neg hz] at hp
          push_neg at hz
          obtain ⟨z1, z2, z3, z4⟩ := hz
          rw [if_neg (not_or.mpr ⟨z1, z2⟩)]
          injection hp with hp1
          injection hp1 with hp2
          rw [← hp2]

theorem find_empty_cache (d : OstnData) (e n : ℚ) :
    (find_OSTN02_shifts_at d [] e n).1 = find_OSTN02_shifts_fresh d e n := by
  simp only [find_OSTN02_shifts_at, find_OSTN02_shifts_fresh, cacheFetch, cacheLookup]
  by_cases h1 : e < 0
  · simp [h1]
  by_cases h2 : n < 0
  · simp [h1, h2]
  by_cases h3 : d.length ≤ km_floor n
  · simp [h1, h2, h3]
  simp only [if_neg h1, if_neg h2, if_neg h3]
  cases hg : get_ostn_pair d (km_floor e) (km_floor n) with
  | error er => simp [hg]
  | ok v =>
    cases v with
    | none => simp [hg]
    | some lo =>
      have hk : ¬ (km_floor e + km_floor n * 701 + 701 = km_floor e + km_floor n * 701) := by
        omega
      simp only [hg, cacheLookup, if_neg hk]
      cases hg2 : get_ostn_pair d (km_floor e) (km_floor n + 1) with
      | error er => simp [hg2, cacheLookup, hk]
      | ok v2 =>
        cases v2 with
        | none => simp [hg2, cacheLookup, hk]
        | some hi => simp [hg2, cacheLookup, hk]
/-- C3 (amended): characterization of `find_OSTN02_shifts_at` (on a first
query, i.e. from the empty cache, where it coincides with the uncached
computation).  It returns `None` exactly when easting or northing is
negative, the cell's north index is beyond the dataset's northward extent,
or one of the four corner nodes of the enclosing cell is undefined — except
that when the north index is exactly the last row and both lower corners are
defined, the row access `ostn_data[n_index+1]` raises `IndexError` instead
of returning; in every remaining case it returns a shift pair. -/
theorem C3_interpolator_characterization (d : OstnData) (e n : ℚ) :
    ((find_OSTN02_shifts_at d [] e n).1 = find_OSTN02_shifts_fresh d e n)
    ∧ (find_OSTN02_shifts_fresh d e n = .error .indexError ↔
        (0 ≤ e ∧ 0 ≤ n ∧ km_floor n + 1 = d.length ∧
         node_value d (km_floor e) (km_floor n) ≠ none ∧
         node_value d (km_floor e + 1) (km_floor n) ≠ none))
    ∧ (find_OSTN02_shifts_fresh d e n = .ok none ↔
        (e < 0 ∨ n < 0 ∨ d.length ≤ km_floor n ∨
         node_value d (km_floor e) (km_floor n) = none ∨
         node_value d (km_floor e + 1) (km_floor n) = none ∨
         (km_floor n + 1 < d.length ∧
           (node_value d (km_floor e) (km_floor n + 1) = none ∨
            node_value d (km_floor e + 1) (km_floor n + 1) = none))))
    ∧ ((0 ≤ e ∧ 0 ≤ n ∧ km_floor n + 1 < d.length ∧
         node_value d (km_floor e) (km_floor n) ≠ none ∧
         node_value d (km_floor e + 1) (km_floor n) ≠ none ∧
         node_value d (km_floor e) (km_floor n + 1) ≠ none ∧
         node_value d (km_floor e + 1) (km_floor n + 1) ≠ none) →
        ∃ s, find_OSTN02_shifts_fresh d e n = .ok (some s)) := by
  refine ⟨find_empty_cache d e n, ?_⟩
  by_cases h1 : e < 0
  · have hres : find_OSTN02_shifts_fresh d e n = .ok none := by
      simp [find_OSTN02_shifts_fresh, h1]
    rw [hres]
    exact ⟨iff_of_false (by simp) (fun hc => absurd hc.1 (not_le.mpr h1)),
           iff_of_true rfl (.inl h1),
           fun hc => absurd hc.1 (not_le.mpr h1)⟩
  by_cases h2 : n < 0
  · have hres : find_OSTN02_shifts_fresh d e n = .ok none := by
      simp [find_OSTN02_shifts_fresh, h1, h2]
    rw [hres]
    exact ⟨iff_of_false (by simp) (fun hc => absurd hc.2.1 (not_le.mpr h2)),
           iff_of_true rfl (.inr (.inl h2)),
           fun hc => absurd hc.2.1 (not_le.mpr h2)⟩
  by_cases h3 : d.length ≤ km_floor n
  · have hres : find_OSTN02_shifts_fresh d e n = .ok none := by
      simp [find_OSTN02_shifts_fresh, h1, h2, h3]
    rw [hres]
    exact ⟨iff_of_false (by simp) (fun hc => by omega),
           iff_of_true rfl (.inr (.inr (.inl h3))),
           fun hc => absurd hc.2.2.1 (by omega)⟩
  have hlt : km_floor n < d.length := lt_of_not_le h3
  rcases get_ostn_pair_shape d (km_floor e) (km_floor n) hlt with hlo | ⟨lo, hlo⟩
  · have hnode := (get_ostn_pair_none_iff d (km_floor e) (km_floor n) hlt).mp hlo
    have hres : find_OSTN02_shifts_fresh d e n = .ok none := by
      simp [find_OSTN02_shifts_fresh, h1, h2, h3, hlo]
    rw [hres]
    exact ⟨iff_of_false (by simp) (fun hc => hnode.elim hc.2.2.2.1 hc.2.2.2.2),
           iff_of_true rfl
             (.inr (.inr (.inr (hnode.elim .inl (fun h => .inr (.inl h)))))),
           fun hc => (hnode.elim hc.2.2.2.1 hc.2.2.2.2.1).elim⟩
  · have hnodes := get_ostn_pair_some_nodes d (km_floor e) (km_floor n) hlt lo hlo
    by_cases h4 : km_floor n + 1 = d.length
    · have hhi : get_ostn_pair d (km_floor e) (km_floor n + 1) = .error .indexError :=
        get_ostn_pair_oob d (km_floor e) (km_floor n + 1) (by omega)
      have hres : find_OSTN02_shifts_fresh d e n = .error .indexError := by
        simp [find_OSTN02_shifts_fresh, h1, h2, h3, hlo, hhi]
      rw [hres]
      refine ⟨iff_of_true rfl ⟨not_lt.mp h1, not_lt.mp h2, h4, hnodes.1, hnodes.2⟩,
              iff_of_false (by simp) ?_, fun hc => absurd hc.2.2.1 (by omega)⟩
      rintro (h | h | h | h | h | ⟨hl, h⟩)
      · exact h1 h
      · exact h2 h
      · exact h3 h
      · exact hnodes.1 h
      · exact hnodes.2 h
      · omega
    · have hlt2 : km_floor n + 1 < d.length := by omega
      rcases get_ostn_pair_shape d (km_floor e) (km_floor n + 1) hlt2 with hhi | ⟨hi, hhi⟩
      · have hnode2 := (get_ostn_pair_none_iff d (km_floor e) (km_floor n + 1) hlt2).mp hhi
        have hres : find_OSTN02_shifts_fresh d e n = .ok none := by
          simp [find_OSTN02_shifts_fresh, h1, h2, h3, hlo, hhi]
        rw [hres]
        exact ⟨iff_of_false (by simp) (fun hc => absurd hc.2.2.1 (by omega)),
               iff_of_true rfl (.inr (.inr (.inr (.inr (.inr ⟨hlt2, hnode2⟩))))),
               fun hc => (hnode2.elim hc.2.2.2.2.2.1 hc.2.2.2.2.2.2).elim⟩
      · have hnodes2 := get_ostn_pair_some_nodes d (km_floor e) (km_floor n + 1) hlt2 hi hhi
        have hres : find_OSTN02_shifts_fresh d e n =
            .ok (some (ostn_interp lo hi e n (km_floor e) (km_floor n))) := by
          simp [find_OSTN02_shifts_fresh, h1, h2, h3, hlo, hhi]
        rw [hres]
        refine ⟨iff_of_false (by simp) (fun hc => absurd hc.2.2.1 (by omega)),
                iff_of_false (by simp) ?_, fun hc => ⟨_, rfl⟩⟩
        rintro (h | h | h | h | h | ⟨hl, h⟩)
        · exact h1 h
        · exact h2 h
        · exact h3 h
        · exact hnodes.1 h
        · exact hnodes.2 h
        · exact h.elim hnodes2.1 hnodes2.2

theorem cache_ok_nil (d : OstnData) : cache_ok d [] := by
  intro k v hv
  simp [cacheLookup] at hv

theorem cacheFetch_eq (d : OstnData) (c : OstnCache) (k x y : ℕ)
    (hc : cache_ok d c) (hk1 : k % 701 = x) (hk2 : k / 701 = y) :
    ∃ c2, cache_ok d c2 ∧
      cacheFetch d c k x y =
        (match get_ostn_pair d x y with
         | .error er => .error er
         | .ok v => .ok (v, c2)) := by
  cases hl : cacheLookup c k with
  | some v =>
    have hg : get_ostn_pair d x y = .ok v := by
      have h0 := hc k v hl
      rwa [hk1, hk2] at h0
    exact ⟨c, hc, by simp [cacheFetch, hl, hg]⟩
  | none =>
    cases hg : get_ostn_pair d x y with
    | error er => exact ⟨c, hc, by simp [cacheFetch, hl, hg]⟩
    | ok v =>
      refine ⟨(k, v) :: c, ?_, by simp [cacheFetch, hl, hg]⟩
      intro k2 v2 h2
      simp only [cacheLookup] at h2
      by_cases hkk : k2 = k
      · rw [if_pos hkk] at h2
        injection h2 with h3
        rw [hkk, hk1, hk2, ← h3]
        exact hg
      · rw [if_neg hkk] at h2
        exact hc k2 v2 h2

theorem find_memo_step (d : OstnData) (c : OstnCache) (e n : ℚ)
    (hc : cache_ok d c) (he : km_floor e < 701) :
    (find_OSTN02_shifts_at d c e n).1 = find_OSTN02_shifts_fresh d e n
    ∧ cache_ok d (find_OSTN02_shifts_at d c e n).2 := by
  by_cases h1 : e < 0
  · refine ⟨by simp [find_OSTN02_shifts_at, find_OSTN02_shifts_fresh, h1], ?_⟩
    simp only [find_OSTN02_shifts_at, if_pos h1]
    exact hc
  by_cases h2 : n < 0
  · refine ⟨by simp [find_OSTN02_shifts_at, find_OSTN02_shifts_fresh, h1, h2], ?_⟩
    simp only [find_OSTN02_shifts_at, if_neg h1, if_pos h2]
    exact hc
  by_cases h3 : d.length ≤ km_floor n
  · refine ⟨by simp [find_OSTN02_shifts_at, find_OSTN02_shifts_fresh, h1, h2, h3], ?_⟩
    simp only [find_OSTN02_shifts_at, if_neg h1, if_neg h2, if_pos h3]
    exact hc
  obtain ⟨c1, hc1, hf1⟩ := cacheFetch_eq d c (km_floor e + km_floor n * 701)
      (km_floor e) (km_floor n) hc (by omega) (by omega)
  cases hg : get_ostn_pair d (km_floor e) (km_floor n) with
  | error er =>
    rw [hg] at hf1
    refine ⟨by simp [find_OSTN02_shifts_at, find_OSTN02_shifts_fresh, h1, h2, h3, hf1, hg], ?_⟩
    simp only [find_OSTN02_shifts_at, if_neg h1, if_neg h2, if_neg h3, hf1]
    exact hc
  | ok v =>
    rw [hg] at hf1
    cases v with
    | none =>
      refine ⟨by simp [find_OSTN02_shifts_at, find_OSTN02_shifts_fresh, h1, h2, h3, hf1, hg], ?_⟩
      simp only [find_OSTN02_shifts_at, if_neg h1, if_neg h2, if_neg h3, hf1]
      exact hc1
    | some lo =>
      obtain ⟨c2, hc2, hf2⟩ := cacheFetch_eq d c1 (km_floor e + km_floor n * 701 + 701)
          (km_floor e) (km_floor n + 1) hc1 (by omega) (by omega)
      cases hg2 : get_ostn_pair d (km_floor e) (km_floor n + 1) with
      | error er =>
        rw [hg2] at hf2
        refine ⟨by simp [find_OSTN02_shifts_at, find_OSTN02_shifts_fresh,
          h1, h2, h3, hf1, hf2, hg, hg2], ?_⟩
        simp only [find_OSTN02_shifts_at, if_neg h1, if_neg h2, if_neg h3, hf1, hf2]
        exact hc1
      | ok v2 =>
        rw [hg2] at hf2
        cases v2 with
        | none =>
          refine ⟨by simp [find_OSTN02_shifts_at, find_OSTN02_shifts_fresh,
            h1, h2, h3, hf1, hf2, hg, hg2], ?_⟩
          simp only [find_OSTN02_shifts_at, if_neg h1, if_neg h2, if_neg h3, hf1, hf2]
          exact hc2
        | some hi =>
          refine ⟨by simp [find_OSTN02_shifts_at, find_OSTN02_shifts_fresh,
            h1, h2, h3, hf1, hf2, hg, hg2], ?_⟩
          simp only [find_OSTN02_shifts_at, if_neg h1, if_neg h2, if_neg h3, hf1, hf2]
          exact hc2

theorem run_queries_fresh (d : OstnData) : ∀ (qs : List (ℚ × ℚ)) (c : OstnCache),
    cache_ok d c → (∀ q ∈ qs, km_floor q.1 < 701) →
    run_queries d c qs = qs.map (fun q => find_OSTN02_shifts_fresh d q.1 q.2) := by
  intro qs
  induction qs with
  | nil => intro c _ _; rfl
  | cons q qs ih =>
    intro c hc hall
    obtain ⟨hres, hcache⟩ := find_memo_step d c q.1 q.2 hc (hall q (List.mem_cons_self q qs))
    simp only [run_queries, List.map_cons, hres,
      ih _ hcache (fun r hr => hall r (List.mem_cons_of_mem q hr))]

/-- C4 (amended): for every query sequence in which each easting lies
below the 701st kilometre column (as all real OSTN02 coverage does), the
memoized `find_OSTN02_shifts_at` returns exactly the results of recomputing
every `get_ostn_pair` fresh, regardless of which distinct queries were
cached earlier.  (Without that bound the composite key `e + 701*n` is not
injective and the equivalence fails, see `C4_counterexample`.) -/
theorem C4_memo_fresh_agree (d : OstnData) (qs : List (ℚ × ℚ))
    (h : ∀ q ∈ qs, km_floor q.1 < 701) :
    run_queries d [] qs = qs.map (fun q => find_OSTN02_shifts_fresh d q.1 q.2) :=
  run_queries_fresh d qs [] (cache_ok_nil d) h

/-- C7 (amended): whenever the interpolator returns a value at a grid
node's exact coordinates `(1000*eastIndex, 1000*northIndex)` — that is,
whenever all four corners of the enclosing cell are defined — the value is
exactly the stored node shift vector: the bilinear weights degenerate to
`(1, 0, 0, 0)` at `t = u = 0`. -/
theorem C7_node_exact (d : OstnData) (ex ny : ℕ) (s : ℚ × ℚ)
    (h : find_OSTN02_shifts_fresh d (1000 * ex) (1000 * ny) = .ok (some s)) :
    node_value d ex ny = some s := by
  have hq : ∀ m : ℕ, (1000 * (m : ℚ)) / 1000 = (m : ℚ) := fun m => by
    rw [mul_comm, mul_div_assoc, div_self (by norm_num : (1000:ℚ) ≠ 0), mul_one]
  have hkm : ∀ m : ℕ, km_floor (1000 * (m : ℚ)) = m := fun m => by
    rw [km_floor, hq, Int.floor_natCast, Int.toNat_natCast]
  have hpos : ∀ m : ℕ, ¬ ((1000 : ℚ) * m < 0) := fun m => not_lt.mpr (by positivity)
  rw [find_OSTN02_shifts_fresh.eq_def] at h
  rw [if_neg (hpos ex), if_neg (hpos ny), hkm, hkm] at h
  by_cases h3 : d.length ≤ ny
  · rw [if_pos h3] at h
    cases h
  rw [if_neg h3] at h
  cases hlo : get_ostn_pair d ex ny with
  | error er => rw [hlo] at h; simp at h
  | ok v =>
    rw [hlo] at h
    cases v with
    | none => simp at h
    | some lo =>
      cases hhi : get_ostn_pair d ex (ny + 1) with
      | error er => rw [hhi] at h; simp at h
      | ok v2 =>
        rw [hhi] at h
        cases v2 with
        | none => simp at h
        | some hi =>
          have ht : (1000 * (ex : ℚ)) / 1000 - (ex : ℚ) = 0 := by rw [hq]; ring
          have hu : (1000 * (ny : ℚ)) / 1000 - (ny : ℚ) = 0 := by rw [hq]; ring
          have hinterp : ostn_interp lo hi (1000 * ex) (1000 * ny) ex ny = (lo.e0, lo.n0) := by
            simp only [ostn_interp, ht, hu]
            norm_num
          simp only [hinterp, Except.ok.injEq, Option.some.injEq] at h
          rw [get_ostn_pair_some_node d ex ny lo hlo, h]

section
set_option allowUnsafeReducibility true
attribute [local semireducible] Rat.add Rat.mul Rat.inv Rat.sub Rat.div Rat.neg Rat.ofScientific

/-- C1, counterexample to the claim as stated: `grid_to_ll` with the unknown
model name `"ED50"` returns a result instead of failing with an error. -/
theorem C1_counterexample :
    grid_to_ll trivOracle (fun _ _ => .ok none) 2 400000 (-100000) "ED50" = .ok (0, 0) := by
  rfl

/-- C1: witness instantiating `C1_unknown_model` at the concrete unknown
model `"ED50"`. -/
theorem C1_unknown_model_witness :
    ll_to_grid trivOracle (fun _ _ => .ok none) 2 0 0 "ED50" (-1) = .error .keyError
    ∧ grid_to_ll trivOracle (fun _ _ => .ok none) 2 400000 (-100000) "ED50"
        = grid_to_ll trivOracle (fun _ _ => .ok none) 2 400000 (-100000) "WGS84" :=
  C1_unknown_model trivOracle (fun _ _ => .ok none) 2 0 0 400000 (-100000) (-1) "ED50"
    (by decide) (by decide)

/-- C2, counterexample to the claim as stated: at `(49, -1)` with the
`'OSGB36'` model the returned easting is the 3-decimal rounding of the
projection and differs from the full-precision projection value. -/
theorem C2_counterexample :
    ll_to_grid trivOracle (fun _ _ => .ok none) 1 49 (-1) "OSGB36" (-1)
      = .ok (pyRound (project_onto_grid trivOracle osgb36 49 (-1)).1 3,
             pyRound (project_onto_grid trivOracle osgb36 49 (-1)).2 3)
    ∧ pyRound (project_onto_grid trivOracle osgb36 49 (-1)).1 3
        ≠ (project_onto_grid trivOracle osgb36 49 (-1)).1 :=
  ⟨rfl, by decide⟩

/-- C2: witness instantiating `C2_rounding_applied` at concrete inputs, once
with a shift function hitting the OSTN02-corrected path and once with one
hitting the Helmert fallback path (whose shifted point computes to `(0, 0)`
under `trivOracle`). -/
theorem C2_rounding_applied_witness :
    ll_to_grid trivOracle (fun _ _ => .ok (some (1, 2))) 1 49 (-1) "OSGB36" 2
      = .ok (pyRound (project_onto_grid trivOracle osgb36 49 (-1)).1 2,
             pyRound (project_onto_grid trivOracle osgb36 49 (-1)).2 2)
    ∧ ll_to_grid trivOracle (fun _ _ => .ok (some (1, 2))) 1 49 (-1) "OSGB36" (-1)
      = .ok (pyRound (project_onto_grid trivOracle osgb36 49 (-1)).1 3,
             pyRound (project_onto_grid trivOracle osgb36 49 (-1)).2 3)
    ∧ ll_to_grid trivOracle (fun _ _ => .ok (some (1, 2))) 1 49 (-1) "WGS84" (-1)
      = .ok (pyRound ((project_onto_grid trivOracle wgs84 49 (-1)).1 + 1) 3,
             pyRound ((project_onto_grid trivOracle wgs84 49 (-1)).2 + 2) 3)
    ∧ ll_to_grid trivOracle (fun _ _ => .ok (some (1, 2))) 1 49 (-1) "WGS84" 2
      = .ok (pyRound ((project_onto_grid trivOracle wgs84 49 (-1)).1 + 1) 2,
             pyRound ((project_onto_grid trivOracle wgs84 49 (-1)).2 + 2) 2)
    ∧ ll_to_grid trivOracle (fun _ _ => .ok none) 1 49 (-1) "WGS84" (-1)
      = .ok (pyRound (project_onto_grid trivOracle osgb36 0 0).1 0,
             pyRound (project_onto_grid trivOracle osgb36 0 0).2 0)
    ∧ ll_to_grid trivOracle (fun _ _ => .ok none) 1 49 (-1) "WGS84" 2
      = .ok (pyRound (project_onto_grid trivOracle osgb36 0 0).1 2,
             pyRound (project_onto_grid trivOracle osgb36 0 0).2 2) := by
  have h1 := C2_rounding_applied trivOracle (fun _ _ => .ok (some (1, 2))) 1 49 (-1) 2
      (by decide) (by decide)
  have h2 := C2_rounding_applied trivOracle (fun _ _ => .ok none) 1 49 (-1) 2
      (by decide) (by decide)
  exact ⟨h1.1, h1.2.1, (h1.2.2.1 (1, 2) rfl).1, (h1.2.2.1 (1, 2) rfl).2,
         (h2.2.2.2 (0, 0) rfl rfl).1, (h2.2.2.2 (0, 0) rfl rfl).2⟩

/-- C3, counterexample to the claim as stated: on a dataset whose top row
holds a defined pair, a query in the top row makes the interpolator fail
with `IndexError` instead of returning `None` or a shift pair. -/
theorem C3_counterexample :
    find_OSTN02_shifts_fresh sampleTop 500 500 = .error .indexError
    ∧ (find_OSTN02_shifts_at sampleTop [] 500 500).1 = .error .indexError :=
  ⟨rfl, rfl⟩

/-- C3: witness instantiating the shift-pair case of
`C3_interpolator_characterization` on a dataset where all four corners are
defined. -/
theorem C3_interpolator_characterization_witness :
    ∃ s, find_OSTN02_shifts_fresh sampleFull 0 0 = .ok (some s) :=
  (C3_interpolator_characterization sampleFull 0 0).2.2.2 (by decide)

/-- C4, counterexample to the claim as stated: after a query with east index
701 poisons cache key `701 = 0 + 1*701`, the memoized lookup at
`(0, 1000)` returns `None` while the fresh computation returns a shift. -/
theorem C4_counterexample :
    (find_OSTN02_shifts_at sampleCollide
        (find_OSTN02_shifts_at sampleCollide [] 701000 0).2 0 1000).1 = .ok none
    ∧ find_OSTN02_shifts_fresh sampleCollide 0 1000
        = .ok (some (10748/125, -10252/125))
    ∧ (Except.ok none : Except Err (Option (ℚ × ℚ)))
        ≠ .ok (some (10748/125, -10252/125)) :=
  ⟨rfl, rfl, by simp⟩

/-- C4: witness instantiating `C4_memo_fresh_agree` on a concrete two-query
run. -/
theorem C4_memo_fresh_agree_witness :
    run_queries sampleFull [] [(0, 0), (500, 1500)] =
      [((0:ℚ), (0:ℚ)), (500, 1500)].map
        (fun q => find_OSTN02_shifts_fresh sampleFull q.1 q.2) :=
  C4_memo_fresh_agree sampleFull [(0, 0), (500, 1500)] (by decide)

/-- C5: witness instantiating `C5_shift_search_cap` with a constant shift
function, discharging the early-stop and totality hypotheses. -/
theorem C5_shift_search_cap_witness :
    ostn_shift_loop_rounds (fun _ _ => Except.ok (some (1, 1))) 0 0 20 5 5 (1, 1) ≤ 20
    ∧ ostn_shift_loop (fun _ _ => Except.ok (some (1, 1))) 0 0 20 5 5 (1, 1)
        = .ok (some (-1, -1))
    ∧ ∃ p, ostn_shift_loop (fun _ _ => Except.ok (some (1, 1))) 0 0 20 5 5 (1, 1)
        = .ok (some p) := by
  have h := C5_shift_search_cap (fun _ _ => Except.ok (some (1, 1))) 0 0 5 5 (1, 1)
  exact ⟨h.1, h.2.1 (1, 1) rfl (by decide) (by decide), h.2.2 (fun a b => ⟨(1, 1), rfl⟩)⟩

/-- C7, counterexample to the claim as stated: node `(0, 0)` of `sampleEdge`
is stored, yet the interpolator at its exact coordinates returns `None`
(the cell's upper corners are undefined), not the stored value. -/
theorem C7_counterexample :
    node_value sampleEdge 0 0 = some (10748/125, -10252/125)
    ∧ find_OSTN02_shifts_fresh sampleEdge 0 0 = .ok none
    ∧ (Except.ok none : Except Err (Option (ℚ × ℚ)))
        ≠ .ok (some (10748/125, -10252/125)) :=
  ⟨by decide, rfl, by simp⟩

/-- C7: witness instantiating `C7_node_exact` at node `(0, 0)` of
`sampleFull`. -/
theorem C7_node_exact_witness :
    node_value sampleFull 0 0 = some (10748/125, -10252/125) :=
  C7_node_exact sampleFull 0 0 (10748/125, -10252/125) rfl

/-- C8: witness instantiating `C8_true_origin` at a concrete oracle with
`sin 0 = 0`. -/
theorem C8_true_origin_witness :
    ll_to_grid trivOracle (fun _ _ => .ok none) 1 49 (-2) "OSGB36" (-1)
      = .ok (400000, -100000) :=
  C8_true_origin trivOracle (fun _ _ => .ok none) 1 rfl

end
